import Mathlib

/-!
Verification of the analytics engine of `ai_data_accessor.py`
(class `AIDataAccessor`): user profiles, customer segmentation,
recommendations, similar-user search, purchase prediction and
personalized search ranking, shallowly embedded over an in-memory
model of the three tables `users`, `products`, `orders`.

Numeric values (prices, averages, probabilities, dates measured in
days) are modelled as exact rationals; Python's `round(x, d)`
(round-half-to-even to `d` decimal places) is modelled by `pyRound`.
-/

unseal Rat.add Rat.mul Rat.inv Rat.sub Rat.ofScientific

/-- Round-half-to-even to the nearest integer, as Python's builtin
`round` behaves on exact values. -/
def rhe (q : ℚ) : ℤ :=
  if q - (⌊q⌋ : ℚ) < 1/2 then ⌊q⌋
  else if 1/2 < q - (⌊q⌋ : ℚ) then ⌊q⌋ + 1
  else if ⌊q⌋ % 2 = 0 then ⌊q⌋ else ⌊q⌋ + 1

/-- `round(q, d)` of Python: round to `d` decimal places, half to even. -/
def pyRound (d : ℕ) (q : ℚ) : ℚ :=
  (rhe (q * 10 ^ d) : ℚ) / 10 ^ d

theorem rhe_ge_floor (q : ℚ) : ⌊q⌋ ≤ rhe q := by
  unfold rhe
  split_ifs <;> omega

theorem rhe_le_ceil (q : ℚ) : rhe q ≤ ⌈q⌉ := by
  unfold rhe
  split_ifs with h1 h2 h3
  · exact Int.floor_le_ceil q
  · rw [Int.add_one_le_ceil_iff]
    linarith
  · exact Int.floor_le_ceil q
  · rw [Int.add_one_le_ceil_iff]
    have h4 : q - (⌊q⌋ : ℚ) = 1/2 := le_antisymm (not_lt.mp h2) (not_lt.mp h1)
    linarith

theorem abs_rhe_sub_le (q : ℚ) : |(rhe q : ℚ) - q| ≤ 1/2 := by
  unfold rhe
  have hf := Int.floor_le q
  have hc := Int.lt_floor_add_one q
  split_ifs with h1 h2 h3
  · rw [abs_le]; constructor <;> [linarith; linarith]
  · rw [abs_le]
    push_cast
    constructor <;> [linarith; linarith]
  · have h4 : q - (⌊q⌋ : ℚ) = 1/2 := le_antisymm (not_lt.mp h2) (not_lt.mp h1)
    rw [abs_le]; constructor <;> [linarith; linarith]
  · have h4 : q - (⌊q⌋ : ℚ) = 1/2 := le_antisymm (not_lt.mp h2) (not_lt.mp h1)
    rw [abs_le]
    push_cast
    constructor <;> [linarith; linarith]

theorem rhe_nonneg {q : ℚ} (h : 0 ≤ q) : 0 ≤ rhe q := by
  have : (0 : ℤ) ≤ ⌊q⌋ := Int.le_floor.mpr (by exact_mod_cast h)
  have := rhe_ge_floor q
  omega

theorem pyRound_nonneg (d : ℕ) {q : ℚ} (h : 0 ≤ q) : 0 ≤ pyRound d q := by
  unfold pyRound
  apply div_nonneg
  · exact_mod_cast rhe_nonneg (by positivity)
  · positivity

theorem le_rhe {a : ℤ} {q : ℚ} (h : (a : ℚ) ≤ q) : a ≤ rhe q := by
  have : a ≤ ⌊q⌋ := Int.le_floor.mpr h
  have := rhe_ge_floor q
  omega

theorem rhe_le {a : ℤ} {q : ℚ} (h : q ≤ (a : ℚ)) : rhe q ≤ a := by
  have : ⌈q⌉ ≤ a := Int.ceil_le.mpr h
  have := rhe_le_ceil q
  omega

theorem abs_pyRound_sub_le (d : ℕ) (q : ℚ) :
    |pyRound d q - q| ≤ 1 / (2 * 10 ^ d) := by
  unfold pyRound
  have hpos : (0 : ℚ) < 10 ^ d := by positivity
  have h := abs_rhe_sub_le (q * 10 ^ d)
  have hq : (rhe (q * 10 ^ d) : ℚ) / 10 ^ d - q
      = ((rhe (q * 10 ^ d) : ℚ) - q * 10 ^ d) / 10 ^ d := by
    field_simp
    ring
  rw [hq, abs_div, abs_of_pos hpos, div_le_div_iff hpos (by positivity)]
  calc |(rhe (q * 10 ^ d) : ℚ) - q * 10 ^ d| * (2 * 10 ^ d)
      ≤ (1/2) * (2 * 10 ^ d) := by
        apply mul_le_mul_of_nonneg_right h (by positivity)
    _ = 1 * 10 ^ d := by ring

/-! ### Descending stable sorts

Both SQL `ORDER BY key DESC` and Python's stable `sort(key=..., reverse=True)`
are modelled with Mathlib's stable `List.insertionSort` under a
"key is at least as large" relation. -/

/-- `descOn key a b` : `a` may come before `b` in a descending sort by `key`. -/
def descOn {α β : Type} [LinearOrder β] (key : α → β) (a b : α) : Prop :=
  key b ≤ key a

instance decDescOn {α β : Type} [LinearOrder β] (key : α → β) :
    DecidableRel (descOn key) :=
  fun a b => inferInstanceAs (Decidable (key b ≤ key a))

instance totalDescOn {α β : Type} [LinearOrder β] (key : α → β) :
    IsTotal α (descOn key) :=
  ⟨fun a b => le_total (key b) (key a)⟩

instance transDescOn {α β : Type} [LinearOrder β] (key : α → β) :
    IsTrans α (descOn key) :=
  ⟨fun _ _ _ h1 h2 => le_trans h2 h1⟩

/-- Stable descending sort by a single key. -/
def sortDescBy {α β : Type} [LinearOrder β] (key : α → β) (l : List α) : List α :=
  List.insertionSort (descOn key) l

theorem sortDescBy_sorted {α β : Type} [LinearOrder β] (key : α → β) (l : List α) :
    (sortDescBy key l).Pairwise (fun a b => key b ≤ key a) :=
  List.sorted_insertionSort (descOn key) l

theorem mem_sortDescBy {α β : Type} [LinearOrder β] {key : α → β} {l : List α} {a : α} :
    a ∈ sortDescBy key l ↔ a ∈ l :=
  (List.perm_insertionSort (descOn key) l).mem_iff

/-- `descOn2 k1 k2 a b` : `a` may come before `b` in a descending
lexicographic sort by the key pair `(k1, k2)`. -/
def descOn2 {α β γ : Type} [LinearOrder β] [LinearOrder γ]
    (k1 : α → β) (k2 : α → γ) (a b : α) : Prop :=
  k1 b < k1 a ∨ (k1 a = k1 b ∧ k2 b ≤ k2 a)

instance decDescOn2 {α β γ : Type} [LinearOrder β] [LinearOrder γ]
    (k1 : α → β) (k2 : α → γ) : DecidableRel (descOn2 k1 k2) :=
  fun a b => inferInstanceAs (Decidable (_ ∨ _))

instance totalDescOn2 {α β γ : Type} [LinearOrder β] [LinearOrder γ]
    (k1 : α → β) (k2 : α → γ) : IsTotal α (descOn2 k1 k2) := by
  constructor
  intro a b
  rcases lt_trichotomy (k1 a) (k1 b) with h | h | h
  · exact Or.inr (Or.inl h)
  · rcases le_total (k2 b) (k2 a) with h2 | h2
    · exact Or.inl (Or.inr ⟨h, h2⟩)
    · exact Or.inr (Or.inr ⟨h.symm, h2⟩)
  · exact Or.inl (Or.inl h)

instance transDescOn2 {α β γ : Type} [LinearOrder β] [LinearOrder γ]
    (k1 : α → β) (k2 : α → γ) : IsTrans α (descOn2 k1 k2) := by
  constructor
  intro a b c hab hbc
  rcases hab with h1 | ⟨h1, h1'⟩
  · rcases hbc with h2 | ⟨h2, _⟩
    · exact Or.inl (h2.trans h1)
    · exact Or.inl (h2 ▸ h1)
  · rcases hbc with h2 | ⟨h2, h2'⟩
    · exact Or.inl (h1 ▸ h2)
    · exact Or.inr ⟨h1.trans h2, h2'.trans h1'⟩

/-- Stable descending lexicographic sort by a pair of keys, as Python's
`sorted(..., key=lambda x: (k1 x, k2 x), reverse=True)`. -/
def sortDescBy2 {α β γ : Type} [LinearOrder β] [LinearOrder γ]
    (k1 : α → β) (k2 : α → γ) (l : List α) : List α :=
  List.insertionSort (descOn2 k1 k2) l

theorem sortDescBy2_sorted {α β γ : Type} [LinearOrder β] [LinearOrder γ]
    (k1 : α → β) (k2 : α → γ) (l : List α) :
    (sortDescBy2 k1 k2 l).Pairwise (descOn2 k1 k2) :=
  List.sorted_insertionSort (descOn2 k1 k2) l

theorem mem_sortDescBy2 {α β γ : Type} [LinearOrder β] [LinearOrder γ]
    {k1 : α → β} {k2 : α → γ} {l : List α} {a : α} :
    a ∈ sortDescBy2 k1 k2 l ↔ a ∈ l :=
  (List.perm_insertionSort (descOn2 k1 k2) l).mem_iff

/-! ### Miscellaneous helpers -/

/-- Append `c` unless already present; folding this over a list keeps the
first occurrence of each element, like insertion into a Python dict. -/
def pushNew (acc : List String) (c : String) : List String :=
  if c ∈ acc then acc else acc ++ [c]

/-- Distinct elements of `l` in order of first occurrence (insertion order
of a Python dict keyed by the elements). -/
def firstOccs (l : List String) : List String :=
  l.foldl pushNew []

/-- The code point of `c` lowered over the ASCII range, as SQLite's
default LIKE folds case. -/
def lowerCode (c : Char) : Nat :=
  if 65 ≤ c.toNat && c.toNat ≤ 90 then c.toNat + 32 else c.toNat

/-- Does `pat` occur at the head of `s`? -/
def matchHead : List Nat → List Nat → Bool
  | [], _ => true
  | _ :: _, [] => false
  | a :: as, b :: bs => a == b && matchHead as bs

/-- Does `pat` occur as a contiguous run inside `s`? -/
def hasSubList (pat : List Nat) : List Nat → Bool
  | [] => pat.isEmpty
  | c :: rest => matchHead pat (c :: rest) || hasSubList pat rest

/-- SQL LIKE with a pattern of percent-wrapped `term`, under SQLite's
default case-insensitive matching: case-insensitive substring test. -/
def likeMatch (term : String) (s : String) : Bool :=
  hasSubList (term.toList.map lowerCode) (s.toList.map lowerCode)

/-! ### Data model

The three tables backing the accessor (`database_setup.py` schema):
`users`, `products`, `orders`. Money and dates (in days) are exact
rationals, ids and quantities naturals. -/

structure User where
  user_id : Nat
  username : String
  email : String
  created_at : ℚ
  is_active : Bool
deriving DecidableEq, Repr

structure Product where
  product_id : Nat
  product_name : String
  category : String
  price : ℚ
  stock_quantity : Nat
  created_at : ℚ
deriving DecidableEq, Repr

structure Order where
  order_id : Nat
  user_id : Nat
  product_id : Nat
  quantity : Nat
  total_price : ℚ
  order_date : ℚ
  status : String
deriving DecidableEq, Repr

/-- The relational store: the rows of the three tables. -/
structure DB where
  users : List User
  products : List Product
  orders : List Order
deriving DecidableEq, Repr

/-! ### Data gateway (core data access by unique id) -/

/-- `get_user_by_id`: first row of `users` with the given id. -/
def getUserById (db : DB) (uid : Nat) : Option User :=
  db.users.find? (fun u => u.user_id == uid)

/-- `get_product_by_id`: first row of `products` with the given id. -/
def getProductById (db : DB) (pid : Nat) : Option Product :=
  db.products.find? (fun p => p.product_id == pid)

/-- An order row joined with its product's name, category and price, as
produced by the order-history query of `build_user_profile`. -/
structure OrderJoined where
  order_id : Nat
  product_id : Nat
  quantity : Nat
  total_price : ℚ
  order_date : ℚ
  product_name : String
  category : String
  price : ℚ
deriving DecidableEq, Repr

/-- Inner join of one order row with `products`. -/
def joinOrder (db : DB) (o : Order) : Option OrderJoined :=
  (getProductById db o.product_id).map (fun p =>
    { order_id := o.order_id
      product_id := o.product_id
      quantity := o.quantity
      total_price := o.total_price
      order_date := o.order_date
      product_name := p.product_name
      category := p.category
      price := p.price })

/-- The order-history query of `build_user_profile`: the user's orders
joined with products, ordered by `order_date` descending. -/
def getOrdersForUser (db : DB) (uid : Nat) : List OrderJoined :=
  sortDescBy (fun o => o.order_date)
    ((db.orders.filter (fun o => o.user_id == uid)).filterMap (joinOrder db))

/-- `COUNT(o.order_id)` of the orders referencing a product: the
popularity score used by every ranking query. -/
def popularityOf (db : DB) (pid : Nat) : Nat :=
  (db.orders.filter (fun o => o.product_id == pid)).length

/-- A product row carrying its aggregated order count (the column named
`popularity_score`, `order_count` or `popularity` in the queries). -/
structure ScoredProduct where
  product : Product
  popularity : Nat
deriving DecidableEq, Repr

/-- `_get_popular_products`: in-stock products ranked by order count
descending, first `limit` rows. -/
def getPopularProducts (db : DB) (limit : Nat) : List ScoredProduct :=
  (sortDescBy (fun sp => sp.popularity)
    ((db.products.filter (fun p => decide (0 < p.stock_quantity))).map
      (fun p => ⟨p, popularityOf db p.product_id⟩))).take limit

/-- The candidate query of `recommend_products_for_user`: in-stock
products of the given categories ranked by popularity descending,
first `limit` rows. -/
def getProductsInCategories (db : DB) (cats : List String) (limit : Nat) :
    List ScoredProduct :=
  (sortDescBy (fun sp => sp.popularity)
    ((db.products.filter
        (fun p => decide (p.category ∈ cats) && decide (0 < p.stock_quantity))).map
      (fun p => ⟨p, popularityOf db p.product_id⟩))).take limit

/-! ### Profile builder -/

/-- `_classify_customer`: fixed ordered rule set, first match wins. -/
def classifyCustomer (total_spent : ℚ) (total_orders : Nat) : String :=
  if 2000 < total_spent ∧ 10 < total_orders then "VIP Customer"
  else if 1000 < total_spent ∨ 5 < total_orders then "Regular Customer"
  else if 0 < total_orders then "Occasional Buyer"
  else "New User"

/-- Sum of `total_price` over a list of joined orders (the raw
`total_spent` accumulator, before rounding). -/
def rawTotalSpent (orders : List OrderJoined) : ℚ :=
  (orders.map (fun o => o.total_price)).sum

/-- `category_counts[c]`: number of the user's orders in category `c`. -/
def catCount (orders : List OrderJoined) (c : String) : Nat :=
  (orders.filter (fun o => o.category == c)).length

/-- `category_spending[c]`: total price of the user's orders in `c`. -/
def catSpending (orders : List OrderJoined) (c : String) : ℚ :=
  rawTotalSpent (orders.filter (fun o => o.category == c))

/-- The categories of the order history, distinct, stably sorted
descending by the pair (order count, category spend) — the
`favorite_categories` ranking before the top-3 cut. -/
def rankedCategories (orders : List OrderJoined) : List String :=
  sortDescBy2 (catCount orders) (catSpending orders)
    (firstOccs (orders.map (fun o => o.category)))

/-- The derived, ephemeral user profile. -/
structure Profile where
  user_info : User
  total_orders : Nat
  total_spent : ℚ
  avg_order_value : ℚ
  favorite_categories : List String
  recent_orders : List OrderJoined
  customer_segment : String
deriving DecidableEq, Repr

/-- `build_user_profile`: aggregate the user's order history into a
profile; absent user yields the absent value. -/
def buildUserProfile (db : DB) (uid : Nat) : Option Profile :=
  (getUserById db uid).map (fun user =>
    let orders := getOrdersForUser db uid
    let total_spent := rawTotalSpent orders
    let total_orders := orders.length
    let avg_order_value : ℚ :=
      if 0 < total_orders then total_spent / total_orders else 0
    { user_info := user
      total_orders := total_orders
      total_spent := pyRound 2 total_spent
      avg_order_value := pyRound 2 avg_order_value
      favorite_categories := (rankedCategories orders).take 3
      recent_orders := orders.take 5
      customer_segment := classifyCustomer total_spent total_orders })

/-- Does the user's profile exist and carry at least one favorite
category? (The guard of every personalized path.) -/
def hasFavorites (db : DB) (uid : Nat) : Bool :=
  match buildUserProfile db uid with
  | none => false
  | some profile => !profile.favorite_categories.isEmpty

/-- Product ids of the profile's recent-orders window (up to 5
most-recent orders); empty when the profile is absent. -/
def recentProductIds (db : DB) (uid : Nat) : List Nat :=
  match buildUserProfile db uid with
  | none => []
  | some profile => profile.recent_orders.map (fun o => o.product_id)

/-! ### Recommendation engine -/

/-- `recommend_products_for_user`: popularity fallback when the profile
is absent or has no favorite categories; otherwise candidates from the
favorite categories (over-sampled to `limit * 2`), minus the products of
the recent-orders window, truncated to `limit`. -/
def recommendProductsForUser (db : DB) (uid : Nat) (limit : Nat) :
    List ScoredProduct :=
  match buildUserProfile db uid with
  | none => getPopularProducts db limit
  | some profile =>
    if profile.favorite_categories.isEmpty then getPopularProducts db limit
    else
      let purchased := profile.recent_orders.map (fun o => o.product_id)
      ((getProductsInCategories db profile.favorite_categories (limit * 2)).filter
        (fun sp => decide (sp.product.product_id ∉ purchased))).take limit

/-! ### Similarity engine -/

/-- A row of the `find_similar_users` result set. -/
structure SimilarUser where
  user_id : Nat
  username : String
  common_categories : Nat
  total_orders : Nat
deriving DecidableEq, Repr

/-- The categories, with multiplicity, of the orders of user `uid` whose
product's category lies in `cats` — the rows of the similarity query's
join that survive its WHERE clause for one candidate user. -/
def matchingCats (db : DB) (cats : List String) (uid : Nat) : List String :=
  db.orders.filterMap (fun o =>
    if o.user_id == uid then
      (getProductById db o.product_id).bind
        (fun p => if p.category ∈ cats then some p.category else none)
    else none)

/-- `find_similar_users`: empty without favorite categories; otherwise
candidate users with at least one order in the target's favorite
categories, excluding the target, ranked descending by
(distinct matching categories, matching order count), first `limit` rows.
Both aggregates are computed over the WHERE-filtered join, so
`total_orders` counts only the candidate's orders in those categories. -/
def findSimilarUsers (db : DB) (uid : Nat) (limit : Nat) : List SimilarUser :=
  match buildUserProfile db uid with
  | none => []
  | some profile =>
    if profile.favorite_categories.isEmpty then []
    else
      let cats := profile.favorite_categories
      let rows := (db.users.filter (fun u =>
          u.user_id != uid && !(matchingCats db cats u.user_id).isEmpty)).map
        (fun u =>
          { user_id := u.user_id
            username := u.username
            common_categories := (firstOccs (matchingCats db cats u.user_id)).length
            total_orders := (matchingCats db cats u.user_id).length : SimilarUser })
      (sortDescBy2 (fun s : SimilarUser => s.common_categories)
        (fun s => s.total_orders) rows).take limit

/-! ### Purchase predictor -/

/-- The result record of `predict_next_purchase`. -/
structure Prediction where
  avg_days_between_orders : ℚ
  days_since_last_order : ℤ
  predicted_days_until_next_purchase : ℚ
  likely_category : Option String
  purchase_probability : ℚ
deriving DecidableEq, Repr

/-- `abs((date1 - date2).days)` for each consecutive pair of the window:
Python's `timedelta.days` floors, then the absolute value is taken. -/
def dayGaps : List OrderJoined → List ℤ
  | o1 :: o2 :: rest => |⌊o1.order_date - o2.order_date⌋| :: dayGaps (o2 :: rest)
  | _ => []

/-- `np.mean(time_diffs) if time_diffs else 30`. -/
def avgGap (orders : List OrderJoined) : ℚ :=
  let gaps := dayGaps orders
  if gaps.isEmpty then 30
  else ((gaps.map (fun g => (g : ℚ))).sum) / gaps.length

/-- `_calculate_purchase_probability`: guard the zero average, otherwise
clamp the linear ratio to `[0.1, 1.0]` and round to 2 places. -/
def calcPurchaseProbability (days_since : ℚ) (avg_days : ℚ) : ℚ :=
  if avg_days = 0 then 1/10
  else pyRound 2 (min 1 (max (1/10) (days_since / avg_days)))

/-- `predict_next_purchase` at current time `now` (days): absent unless
the recent-orders window holds at least 2 orders. -/
def predictNextPurchase (db : DB) (now : ℚ) (uid : Nat) : Option Prediction :=
  match buildUserProfile db uid with
  | none => none
  | some profile =>
    match profile.recent_orders with
    | o1 :: _ :: _ =>
      let avg := avgGap profile.recent_orders
      let days_since : ℤ := ⌊now - o1.order_date⌋
      let predicted : ℚ := max 0 (avg - (days_since : ℚ))
      some { avg_days_between_orders := pyRound 1 avg
             days_since_last_order := days_since
             predicted_days_until_next_purchase := pyRound 1 predicted
             likely_category := profile.favorite_categories.head?
             purchase_probability := calcPurchaseProbability (days_since : ℚ) avg }
    | _ => none

/-! ### Search ranker -/

/-- The base search query of `get_smart_search_results`: products whose
name or category matches the term, with popularity, ranked by popularity
descending, first 20 rows. -/
def searchProducts (db : DB) (term : String) : List ScoredProduct :=
  (sortDescBy (fun sp => sp.popularity)
    ((db.products.filter
        (fun p => likeMatch term p.product_name || likeMatch term p.category)).map
      (fun p => ⟨p, popularityOf db p.product_id⟩))).take 20

/-- A search result; `relevance_score` is attached only on the
personalized path. -/
structure SearchResult where
  product : Product
  popularity : Nat
  relevance_score : Option ℚ
deriving DecidableEq, Repr

/-- The boosted relevance: popularity times 1.5 for a favorite-category
product, plain popularity otherwise. -/
def relevanceOf (favs : List String) (sp : ScoredProduct) : ℚ :=
  if sp.product.category ∈ favs then (sp.popularity : ℚ) * (3/2)
  else (sp.popularity : ℚ)

/-- `get_smart_search_results`: base result list, re-ranked by the
boosted relevance when a (truthy, hence nonzero) user id with favorite
categories is supplied, truncated to 10 rows. -/
def getSmartSearchResults (db : DB) (term : String) (uid : Option Nat) :
    List SearchResult :=
  let base := searchProducts db term
  let plain : List SearchResult :=
    base.map (fun sp => ⟨sp.product, sp.popularity, none⟩)
  match uid with
  | none => plain.take 10
  | some u =>
    if u = 0 then plain.take 10
    else
      match buildUserProfile db u with
      | none => plain.take 10
      | some profile =>
        if profile.favorite_categories.isEmpty then plain.take 10
        else
          let favs := profile.favorite_categories
          ((sortDescBy (relevanceOf favs) base).map
            (fun sp => ⟨sp.product, sp.popularity, some (relevanceOf favs sp)⟩)).take 10

/-! ### Concrete stores for boundary checks -/

/-- A one-unit order of 10 currency units, for building small stores. -/
def mkOrder (oid uid pid : Nat) (d : ℚ) : Order :=
  { order_id := oid, user_id := uid, product_id := pid, quantity := 1
    total_price := 10, order_date := d, status := "delivered" }

/-- A product with price 10 and stock 5, for building small stores. -/
def mkProduct (pid : Nat) (name cat : String) : Product :=
  { product_id := pid, product_name := name, category := cat
    price := 10, stock_quantity := 5, created_at := 0 }

/-- Store: user 1 with four orders of one product at days 0, 2, 3, 4;
user 2 with no orders. -/
def exDB2 : DB :=
  { users := [⟨1, "alice", "a", 0, true⟩, ⟨2, "bob", "b", 0, true⟩]
    products := [mkProduct 1 "Widget" "A"]
    orders := [mkOrder 1 1 1 0, mkOrder 2 1 1 2, mkOrder 3 1 1 3, mkOrder 4 1 1 4] }

/-- Store: user 1 bought products 1..6 (category A) on days 1..6, so
product 1 lies outside the 5-order recency window; product 7 unbought. -/
def exDB3 : DB :=
  { users := [⟨1, "alice", "a", 0, true⟩]
    products := (List.range 7).map (fun k => mkProduct (k + 1) "Widget" "A")
    orders := (List.range 6).map (fun k => mkOrder (k + 1) 1 (k + 1) ((k : ℚ) + 1)) }

/-- Store: target user 1 favors category A; candidate 2 has 2 orders in
A plus 10 in Z (12 in total); candidate 3 has 3 orders, all in A. -/
def exDB4 : DB :=
  { users := [⟨1, "alice", "a", 0, true⟩, ⟨2, "bob", "b", 0, true⟩,
              ⟨3, "carol", "c", 0, true⟩]
    products := [mkProduct 1 "Widget" "A", mkProduct 2 "Gadget" "Z"]
    orders := [mkOrder 1 1 1 0, mkOrder 2 2 1 1, mkOrder 3 2 1 2]
      ++ (List.range 10).map (fun k => mkOrder (k + 4) 2 2 ((k : ℚ) + 1))
      ++ [mkOrder 14 3 1 1, mkOrder 15 3 1 2, mkOrder 16 3 1 3] }

/-- Store: user 1 with three orders totalling 32.96, whose mean
10.98666... rounds to 10.99. -/
def exDB6 : DB :=
  { users := [⟨1, "alice", "a", 0, true⟩]
    products := [mkProduct 1 "Widget" "A"]
    orders := [
      { order_id := 1, user_id := 1, product_id := 1, quantity := 1
        total_price := 1099/100, order_date := 2, status := "delivered" },
      { order_id := 2, user_id := 1, product_id := 1, quantity := 1
        total_price := 1099/100, order_date := 1, status := "delivered" },
      { order_id := 3, user_id := 1, product_id := 1, quantity := 1
        total_price := 1098/100, order_date := 0, status := "delivered" }] }

/-- Store: user 1 favors category E via 8 orders of product 1
(popularity 8); product 2 (category B) has popularity 12: the boosted
relevance 8 * 1.5 = 12 ties the non-favorite's popularity. -/
def exDB7a : DB :=
  { users := [⟨1, "alice", "a", 0, true⟩, ⟨2, "bob", "b", 0, true⟩]
    products := [mkProduct 1 "prodA" "E", mkProduct 2 "prodB" "B"]
    orders := (List.range 8).map (fun k => mkOrder (k + 1) 1 1 ((k : ℚ) + 1))
      ++ (List.range 12).map (fun k => mkOrder (k + 9) 2 2 ((k : ℚ) + 1)) }

/-- As `exDB7a` but with 9 orders of product 1: boosted relevance
9 * 1.5 = 13.5 beats the non-favorite's popularity 12. -/
def exDB7b : DB :=
  { users := [⟨1, "alice", "a", 0, true⟩, ⟨2, "bob", "b", 0, true⟩]
    products := [mkProduct 1 "prodA" "E", mkProduct 2 "prodB" "B"]
    orders := (List.range 9).map (fun k => mkOrder (k + 1) 1 1 ((k : ℚ) + 1))
      ++ (List.range 12).map (fun k => mkOrder (k + 10) 2 2 ((k : ℚ) + 1)) }

/-- A store with the same table contents as `exDB2`, assembled from its
projections. -/
def exDB9 : DB :=
  { users := exDB2.users, products := exDB2.products, orders := exDB2.orders }

/-- Placeholder profile for selecting from an optional result. -/
def dummyProfile : Profile :=
  { user_info := ⟨0, "", "", 0, false⟩, total_orders := 0, total_spent := 0
    avg_order_value := 0, favorite_categories := [], recent_orders := []
    customer_segment := "" }

/-- Placeholder prediction for selecting from an optional result. -/
def dummyPrediction : Prediction :=
  { avg_days_between_orders := 0, days_since_last_order := 0
    predicted_days_until_next_purchase := 0, likely_category := none
    purchase_probability := 0 }

/-- The candidate's total order count over the whole `orders` table —
the quantity the specification calls the similarity ranking's second
key (claim-side definition, for comparison with `findSimilarUsers`). -/
def userOrderCount (db : DB) (uid : Nat) : Nat :=
  (db.orders.filter (fun o => o.user_id == uid)).length

/-! ### Rounding bounds -/

theorem le_pyRound {d : ℕ} {a : ℤ} {q : ℚ} (h : (a : ℚ) ≤ q * 10 ^ d) :
    (a : ℚ) / 10 ^ d ≤ pyRound d q := by
  unfold pyRound
  have h2 : (a : ℚ) ≤ (rhe (q * 10 ^ d) : ℚ) := by exact_mod_cast le_rhe h
  have hpos : (0 : ℚ) < 10 ^ d := by positivity
  exact (div_le_div_iff_of_pos_right hpos).mpr h2

theorem pyRound_le {d : ℕ} {a : ℤ} {q : ℚ} (h : q * 10 ^ d ≤ (a : ℚ)) :
    pyRound d q ≤ (a : ℚ) / 10 ^ d := by
  unfold pyRound
  have h2 : (rhe (q * 10 ^ d) : ℚ) ≤ (a : ℚ) := by exact_mod_cast rhe_le h
  have hpos : (0 : ℚ) < 10 ^ d := by positivity
  exact (div_le_div_iff_of_pos_right hpos).mpr h2

/-- The purchase probability always lands in `[0.1, 1.0]`. -/
theorem calcProb_bounds (d a : ℚ) :
    1/10 ≤ calcPurchaseProbability d a ∧ calcPurchaseProbability d a ≤ 1 := by
  unfold calcPurchaseProbability
  split_ifs with h
  · norm_num
  · set x := min 1 (max (1/10) (d / a)) with hx
    have hx1 : (1/10 : ℚ) ≤ x := le_min (by norm_num) (le_max_left _ _)
    have hx2 : x ≤ 1 := min_le_left _ _
    constructor
    · have h10 : ((10 : ℤ) : ℚ) ≤ x * 10 ^ 2 := by push_cast; nlinarith
      calc (1/10 : ℚ) = ((10 : ℤ) : ℚ) / 10 ^ 2 := by norm_num
        _ ≤ pyRound 2 x := le_pyRound h10
    · have h100 : x * 10 ^ 2 ≤ ((100 : ℤ) : ℚ) := by push_cast; nlinarith
      calc pyRound 2 x ≤ ((100 : ℤ) : ℚ) / 10 ^ 2 := pyRound_le h100
        _ = 1 := by norm_num

/-! ### The claims -/

/-- C1: customer segmentation is a pure function of
(total spent, order count), evaluated as an ordered rule set with first
match winning: VIP exactly when spent > 2000 and orders > 10, else
Regular exactly when spent > 1000 or orders > 5, else Occasional exactly
when at least one order, else New; with the stated boundary values. -/
theorem c1_segment_classification (s : ℚ) (n : ℕ) :
    (classifyCustomer s n = "VIP Customer" ↔ 2000 < s ∧ 10 < n) ∧
    (classifyCustomer s n = "Regular Customer" ↔
      ¬(2000 < s ∧ 10 < n) ∧ (1000 < s ∨ 5 < n)) ∧
    (classifyCustomer s n = "Occasional Buyer" ↔
      ¬(2000 < s ∧ 10 < n) ∧ ¬(1000 < s ∨ 5 < n) ∧ 0 < n) ∧
    (classifyCustomer s n = "New User" ↔
      ¬(2000 < s ∧ 10 < n) ∧ ¬(1000 < s ∨ 5 < n) ∧ n = 0) ∧
    classifyCustomer 2001 11 = "VIP Customer" ∧
    classifyCustomer 2000 11 = "Regular Customer" ∧
    classifyCustomer 1001 1 = "Regular Customer" ∧
    classifyCustomer 0 1 = "Occasional Buyer" ∧
    classifyCustomer 0 0 = "New User" := by
  refine ⟨?_, ?_, ?_, ?_, by decide, by decide, by decide, by decide, by decide⟩ <;>
  · unfold classifyCustomer
    split_ifs with h1 h2 h3 <;> simp_all <;> omega

/-- C10: the purchase-probability computation is total on nonnegative
average gaps: it always yields a value in `[0.1, 1.0]`, the zero average
is answered by the guard with 0.1, and the dividing branch is taken only
for a nonzero average. -/
theorem c10_probability_total (d a : ℚ) (h : 0 ≤ a) :
    1/10 ≤ calcPurchaseProbability d a ∧
    calcPurchaseProbability d a ≤ 1 ∧
    calcPurchaseProbability d 0 = 1/10 ∧
    (a ≠ 0 → calcPurchaseProbability d a
        = pyRound 2 (min 1 (max (1/10) (d / a)))) := by
  refine ⟨(calcProb_bounds d a).1, (calcProb_bounds d a).2, ?_, fun hne => ?_⟩
  · simp [calcPurchaseProbability]
  · unfold calcPurchaseProbability
    rw [if_neg hne]

/-- Witness for C10 at the concrete input (1, 2). -/
theorem c10_probability_total_witness :
    (0 : ℚ) ≤ 2 ∧
    (1/10 ≤ calcPurchaseProbability 1 2 ∧
     calcPurchaseProbability 1 2 ≤ 1 ∧
     calcPurchaseProbability 1 0 = 1/10 ∧
     ((2 : ℚ) ≠ 0 → calcPurchaseProbability 1 2
        = pyRound 2 (min 1 (max (1/10) (1 / 2))))) :=
  ⟨by norm_num, c10_probability_total 1 2 (by norm_num)⟩

/-- C2 (amended): fewer than 2 orders in the recent window (or an absent
profile) yields the absent value; otherwise the result satisfies
`predicted_days_until_next_purchase >= 0` and
`0.1 <= purchase_probability <= 1.0`, the predicted days being
`max(0, average gap - days since last order)` rounded to 1 decimal
place and the probability the clamped ratio rounded to 2 decimal
places (0.1 directly at a zero average gap). -/
theorem c2_prediction_window (db : DB) (now : ℚ) (uid : Nat) :
    (buildUserProfile db uid = none → predictNextPurchase db now uid = none) ∧
    (∀ profile, buildUserProfile db uid = some profile →
      profile.recent_orders.length < 2 → predictNextPurchase db now uid = none) ∧
    (∀ profile p, buildUserProfile db uid = some profile →
      predictNextPurchase db now uid = some p →
      2 ≤ profile.recent_orders.length ∧
      0 ≤ p.predicted_days_until_next_purchase ∧
      1/10 ≤ p.purchase_probability ∧ p.purchase_probability ≤ 1 ∧
      p.predicted_days_until_next_purchase
        = pyRound 1 (max 0 (avgGap profile.recent_orders
            - (p.days_since_last_order : ℚ))) ∧
      p.purchase_probability
        = calcPurchaseProbability (p.days_since_last_order : ℚ)
            (avgGap profile.recent_orders)) := by
  refine ⟨?_, ?_, ?_⟩
  · intro h
    unfold predictNextPurchase
    rw [h]
  · intro profile hb hlen
    unfold predictNextPurchase
    rw [hb]
    dsimp only
    rcases hro : profile.recent_orders with _ | ⟨o1, _ | ⟨o2, rest⟩⟩
    · rfl
    · rfl
    · rw [hro] at hlen
      simp only [List.length_cons] at hlen
      omega
  · intro profile p hb hp
    unfold predictNextPurchase at hp
    rw [hb] at hp
    dsimp only at hp
    rcases hro : profile.recent_orders with _ | ⟨o1, _ | ⟨o2, rest⟩⟩ <;> rw [hro] at hp
    · simp at hp
    · simp at hp
    · simp only [Option.some.injEq] at hp
      subst hp
      refine ⟨by simp only [List.length_cons]; omega, ?_,
        (calcProb_bounds _ _).1, (calcProb_bounds _ _).2, rfl, rfl⟩
      exact pyRound_nonneg 1 (le_max_left 0 _)

/-- The recent-orders window of user 1 in `exDB2`, selected from the
optional profile. -/
def c2prof : Profile := (buildUserProfile exDB2 1).getD dummyProfile

/-- The prediction for user 1 in `exDB2` at day 4, selected from the
optional result. -/
def c2pred : Prediction := (predictNextPurchase exDB2 4 1).getD dummyPrediction

/-- Counterexample to C2 as stated: in `exDB2` at day 4 the stored
predicted days are 1.3 — the rounded value — while the claim's formula
`max(0, average gap - days since last)` yields 4/3. -/
theorem c2_counterexample :
    (predictNextPurchase exDB2 4 1).map
        (fun p => p.predicted_days_until_next_purchase) = some (13/10) ∧
    (predictNextPurchase exDB2 4 1).map
        (fun p => p.days_since_last_order) = some 0 ∧
    (buildUserProfile exDB2 1).map
        (fun pr => max 0 (avgGap pr.recent_orders - 0)) = some (4/3) ∧
    (13/10 : ℚ) ≠ 4/3 := by
  refine ⟨by decide, by decide, by decide, by decide⟩

/-- Witness for the amended C2 at `exDB2`, day 4, user 1. -/
theorem c2_prediction_window_witness :
    buildUserProfile exDB2 1 = some c2prof ∧
    predictNextPurchase exDB2 4 1 = some c2pred ∧
    (2 ≤ c2prof.recent_orders.length ∧
     0 ≤ c2pred.predicted_days_until_next_purchase ∧
     1/10 ≤ c2pred.purchase_probability ∧ c2pred.purchase_probability ≤ 1 ∧
     c2pred.predicted_days_until_next_purchase
       = pyRound 1 (max 0 (avgGap c2prof.recent_orders
           - (c2pred.days_since_last_order : ℚ))) ∧
     c2pred.purchase_probability
       = calcPurchaseProbability (c2pred.days_since_last_order : ℚ)
           (avgGap c2prof.recent_orders)) :=
  ⟨by decide, by decide,
    (c2_prediction_window exDB2 4 1).2.2 c2prof c2pred (by decide) (by decide)⟩

/-- C3: on the personalized path no product of the recent-orders window
(the up to 5 most-recent orders) is recommended, the result is truncated
to `limit` with no backfill, and the exclusion is bounded to that window:
in `exDB3` product 1, bought sixth-most-recently, is recommended again. -/
theorem c3_recommend_excludes_recent (db : DB) (uid limit : Nat)
    (h : hasFavorites db uid = true) :
    (∀ sp ∈ recommendProductsForUser db uid limit,
        sp.product.product_id ∉ recentProductIds db uid) ∧
    (recommendProductsForUser db uid limit).length ≤ limit ∧
    (recommendProductsForUser exDB3 1 5).map (fun sp => sp.product.product_id)
      = [1, 7] ∧
    1 ∈ (getOrdersForUser exDB3 1).map (fun o => o.product_id) ∧
    1 ∉ recentProductIds exDB3 1 := by
  unfold hasFavorites at h
  rcases hb : buildUserProfile db uid with _ | profile
  · rw [hb] at h
    simp at h
  · rw [hb] at h
    dsimp only at h
    have hfe : profile.favorite_categories.isEmpty = false := by
      simpa using h
    refine ⟨?_, ?_, by decide, by decide, by decide⟩
    · intro sp hsp
      unfold recommendProductsForUser at hsp
      rw [hb] at hsp
      dsimp only at hsp
      rw [if_neg (by simp [hfe])] at hsp
      unfold recentProductIds
      rw [hb]
      dsimp only
      have h1 := (List.take_sublist _ _).subset hsp
      exact of_decide_eq_true (List.mem_filter.mp h1).2
    · unfold recommendProductsForUser
      rw [hb]
      dsimp only
      rw [if_neg (by simp [hfe])]
      exact List.length_take_le _ _

/-- Witness for C3 at `exDB3`, user 1, limit 5. -/
theorem c3_recommend_excludes_recent_witness :
    hasFavorites exDB3 1 = true ∧
    ((∀ sp ∈ recommendProductsForUser exDB3 1 5,
        sp.product.product_id ∉ recentProductIds exDB3 1) ∧
     (recommendProductsForUser exDB3 1 5).length ≤ 5 ∧
     (recommendProductsForUser exDB3 1 5).map (fun sp => sp.product.product_id)
       = [1, 7] ∧
     1 ∈ (getOrdersForUser exDB3 1).map (fun o => o.product_id) ∧
     1 ∉ recentProductIds exDB3 1) :=
  ⟨by decide, c3_recommend_excludes_recent exDB3 1 5 (by decide)⟩

/-- C5: without favorite categories (absent user or no orders) the
recommendation is exactly the popularity fallback: the top `limit`
in-stock products by order count, in descending order-count order. -/
theorem c5_popularity_fallback (db : DB) (uid limit : Nat)
    (h : hasFavorites db uid = false) :
    recommendProductsForUser db uid limit = getPopularProducts db limit ∧
    (∀ sp ∈ getPopularProducts db limit, 0 < sp.product.stock_quantity) ∧
    (getPopularProducts db limit).Pairwise
      (fun a b => b.popularity ≤ a.popularity) ∧
    (getPopularProducts db limit).length ≤ limit := by
  refine ⟨?_, ?_, ?_, ?_⟩
  · unfold hasFavorites at h
    unfold recommendProductsForUser
    rcases hb : buildUserProfile db uid with _ | profile
    · rfl
    · rw [hb] at h
      dsimp only at h
      have hfe : profile.favorite_categories.isEmpty = true := by
        simpa using h
      dsimp only
      rw [if_pos hfe]
  · intro sp hsp
    unfold getPopularProducts at hsp
    have h1 := (List.take_sublist _ _).subset hsp
    rw [mem_sortDescBy] at h1
    rcases List.mem_map.mp h1 with ⟨p, hp, rfl⟩
    exact of_decide_eq_true (List.mem_filter.mp hp).2
  · exact List.Pairwise.sublist (List.take_sublist _ _) (sortDescBy_sorted _ _)
  · exact List.length_take_le _ _

/-- Witness for C5 at `exDB2`, user 2 (a user with no orders). -/
theorem c5_popularity_fallback_witness :
    hasFavorites exDB2 2 = false ∧
    (recommendProductsForUser exDB2 2 3 = getPopularProducts exDB2 3 ∧
     (∀ sp ∈ getPopularProducts exDB2 3, 0 < sp.product.stock_quantity) ∧
     (getPopularProducts exDB2 3).Pairwise
       (fun a b => b.popularity ≤ a.popularity) ∧
     (getPopularProducts exDB2 3).length ≤ 3) :=
  ⟨by decide, c5_popularity_fallback exDB2 2 3 (by decide)⟩

/-- C8: similar-user results never contain the query user id, and a
profile without favorite categories (or an absent profile) yields the
empty list. -/
theorem c8_similar_excludes_self (db : DB) (uid limit : Nat) :
    (∀ s ∈ findSimilarUsers db uid limit, s.user_id ≠ uid) ∧
    (hasFavorites db uid = false → findSimilarUsers db uid limit = []) := by
  constructor
  · intro s hs
    unfold findSimilarUsers at hs
    rcases hb : buildUserProfile db uid with _ | profile <;> rw [hb] at hs
    · simp at hs
    · dsimp only at hs
      by_cases hfe : profile.favorite_categories.isEmpty = true
      · rw [if_pos hfe] at hs
        simp at hs
      · rw [if_neg hfe] at hs
        have h1 := (List.take_sublist _ _).subset hs
        rw [mem_sortDescBy2] at h1
        rcases List.mem_map.mp h1 with ⟨u, hu, rfl⟩
        have h2 := List.of_mem_filter hu
        dsimp only
        intro hEq
        rw [Bool.and_eq_true] at h2
        have h3 := h2.1
        rw [bne_iff_ne] at h3
        exact h3 hEq
  · intro h
    unfold hasFavorites at h
    unfold findSimilarUsers
    rcases hb : buildUserProfile db uid with _ | profile <;> rw [hb] at h
    · dsimp only at h
      have hfe : profile.favorite_categories.isEmpty = true := by
        simpa using h
      dsimp only
      rw [if_pos hfe]

/-- Witness for C8: the empty-profile branch at `exDB2`, user 2. -/
theorem c8_similar_excludes_self_witness :
    hasFavorites exDB2 2 = false ∧ findSimilarUsers exDB2 2 5 = [] :=
  ⟨by decide, (c8_similar_excludes_self exDB2 2 5).2 (by decide)⟩

/-- C6 (amended): a built profile has `avg_order_value = 0` when there
are no orders, and otherwise `avg_order_value` is the raw mean rounded
to 2 decimal places and `total_spent` the raw sum rounded to 2 decimal
places, so `avg_order_value * total_orders` matches `total_spent` within
the rounding tolerance `(total_orders + 1) / 200`. -/
theorem c6_avg_invariant (db : DB) (uid : Nat) (profile : Profile)
    (h : buildUserProfile db uid = some profile) :
    (profile.total_orders = 0 → profile.avg_order_value = 0) ∧
    (0 < profile.total_orders →
      profile.avg_order_value
        = pyRound 2 (rawTotalSpent (getOrdersForUser db uid)
            / (profile.total_orders : ℚ)) ∧
      profile.total_spent = pyRound 2 (rawTotalSpent (getOrdersForUser db uid)) ∧
      |profile.avg_order_value * (profile.total_orders : ℚ) - profile.total_spent|
        ≤ ((profile.total_orders : ℚ) + 1) / 200) := by
  unfold buildUserProfile at h
  rcases hu : getUserById db uid with _ | user <;> rw [hu] at h
  · simp at h
  · dsimp only [Option.map] at h
    simp only [Option.some.injEq] at h
    subst h
    refine ⟨?_, ?_⟩
    · intro h0
      dsimp only at h0 ⊢
      rw [if_neg (by omega)]
      decide
    · intro hpos
      dsimp only at hpos ⊢
      rw [if_pos hpos]
      refine ⟨rfl, rfl, ?_⟩
      set S := rawTotalSpent (getOrdersForUser db uid) with hS
      set n := (getOrdersForUser db uid).length with hn
      have hne : ((n : ℚ)) ≠ 0 := ne_of_gt (by exact_mod_cast hpos)
      have h1 := abs_pyRound_sub_le 2 (S / n)
      have h2 := abs_pyRound_sub_le 2 S
      have hmul : (S / n) * n = S := div_mul_cancel₀ S hne
      have key : pyRound 2 (S / n) * n - pyRound 2 S
          = (pyRound 2 (S / n) - S / n) * n + (S - pyRound 2 S) := by
        rw [sub_mul, hmul]
        ring
      rw [key]
      calc |(pyRound 2 (S / n) - S / n) * n + (S - pyRound 2 S)|
          ≤ |(pyRound 2 (S / n) - S / n) * n| + |S - pyRound 2 S| := abs_add _ _
        _ = |pyRound 2 (S / n) - S / n| * n + |pyRound 2 S - S| := by
            rw [abs_mul, Nat.abs_cast, abs_sub_comm S (pyRound 2 S)]
        _ ≤ (1 / (2 * 10 ^ 2)) * n + 1 / (2 * 10 ^ 2) := by
            apply add_le_add
            · exact mul_le_mul_of_nonneg_right h1 (Nat.cast_nonneg n)
            · exact h2
        _ = ((n : ℚ) + 1) / 200 := by
            rw [show ((2 : ℚ) * 10 ^ 2) = 200 from by norm_num]
            ring

/-- The profile of user 1 in `exDB6`, selected from the optional result. -/
def c6prof : Profile := (buildUserProfile exDB6 1).getD dummyProfile

/-- Counterexample to C6 as stated: in `exDB6` the stored average order
value is 10.99 (the rounded mean) while `total_spent / total_orders` is
32.96 / 3 = 10.98666..., so the exact invariant fails on the stored
fields. -/
theorem c6_counterexample :
    (buildUserProfile exDB6 1).map
        (fun p => (p.avg_order_value, p.total_spent, p.total_orders))
      = some (1099/100, 824/25, 3) ∧
    (1099/100 : ℚ) ≠ (824/25) / 3 := by
  refine ⟨by decide, by decide⟩

/-- Witness for the amended C6 at `exDB6`, user 1. -/
theorem c6_avg_invariant_witness :
    buildUserProfile exDB6 1 = some c6prof ∧
    ((c6prof.total_orders = 0 → c6prof.avg_order_value = 0) ∧
     (0 < c6prof.total_orders →
       c6prof.avg_order_value
         = pyRound 2 (rawTotalSpent (getOrdersForUser exDB6 1)
             / (c6prof.total_orders : ℚ)) ∧
       c6prof.total_spent = pyRound 2 (rawTotalSpent (getOrdersForUser exDB6 1)) ∧
       |c6prof.avg_order_value * (c6prof.total_orders : ℚ) - c6prof.total_spent|
         ≤ ((c6prof.total_orders : ℚ) + 1) / 200)) :=
  ⟨by decide, c6_avg_invariant exDB6 1 c6prof (by decide)⟩

/-- C4 (amended): with at least one favorite category the similarity
result is ranked descending by the pair (distinct shared categories,
candidate's order count within the shared categories) — the second key
counts only the candidate's orders on products in those categories, not
the candidate's total order count — at most 3 favorite categories enter,
and the result holds at most `limit` rows. -/
theorem c4_similar_users_ranking (db : DB) (uid limit : Nat) (profile : Profile)
    (hb : buildUserProfile db uid = some profile)
    (hf : profile.favorite_categories ≠ []) :
    (findSimilarUsers db uid limit).Pairwise
      (fun a b => b.common_categories < a.common_categories ∨
        (a.common_categories = b.common_categories ∧
          b.total_orders ≤ a.total_orders)) ∧
    (∀ s ∈ findSimilarUsers db uid limit,
        s.common_categories
          = (firstOccs (matchingCats db profile.favorite_categories s.user_id)).length ∧
        s.total_orders
          = (matchingCats db profile.favorite_categories s.user_id).length) ∧
    profile.favorite_categories.length ≤ 3 ∧
    (findSimilarUsers db uid limit).length ≤ limit := by
  have hfe : profile.favorite_categories.isEmpty = false := by
    cases hcat : profile.favorite_categories
    · exact absurd hcat hf
    · rfl
  refine ⟨?_, ?_, ?_, ?_⟩
  · unfold findSimilarUsers
    rw [hb]
    dsimp only
    rw [if_neg (by simp [hfe])]
    exact List.Pairwise.sublist (List.take_sublist _ _) (sortDescBy2_sorted _ _ _)
  · intro s hs
    unfold findSimilarUsers at hs
    rw [hb] at hs
    dsimp only at hs
    rw [if_neg (by simp [hfe])] at hs
    have h1 := (List.take_sublist _ _).subset hs
    rw [mem_sortDescBy2] at h1
    rcases List.mem_map.mp h1 with ⟨u, _, rfl⟩
    exact ⟨rfl, rfl⟩
  · unfold buildUserProfile at hb
    rcases hu : getUserById db uid with _ | user <;> rw [hu] at hb
    · simp at hb
    · dsimp only [Option.map] at hb
      simp only [Option.some.injEq] at hb
      subst hb
      exact List.length_take_le _ _
  · unfold findSimilarUsers
    rw [hb]
    dsimp only
    rw [if_neg (by simp [hfe])]
    exact List.length_take_le _ _

/-- Counterexample to C4 as stated: in `exDB4` candidates 2 and 3 tie
on the first key (one distinct shared category each), so the second key
decides their order; candidate 2 has 12 orders in total but only 2 in
the shared category, candidate 3 has 3, all shared. The code ranks
candidate 3 first, so the output is not ranked by the claimed pair
(distinct shared categories, candidate's total order count)
descending. -/
theorem c4_counterexample :
    (findSimilarUsers exDB4 1 5).map (fun s => (s.user_id, s.common_categories))
      = [(3, 1), (2, 1)] ∧
    userOrderCount exDB4 2 = 12 ∧
    userOrderCount exDB4 3 = 3 ∧
    ¬ (findSimilarUsers exDB4 1 5).Pairwise
      (fun a b => b.common_categories < a.common_categories ∨
        (a.common_categories = b.common_categories ∧
          userOrderCount exDB4 b.user_id ≤ userOrderCount exDB4 a.user_id)) := by
  refine ⟨by decide, by decide, by decide, by decide⟩

/-- The profile of user 1 in `exDB4`, selected from the optional result. -/
def c4prof : Profile := (buildUserProfile exDB4 1).getD dummyProfile

/-- Witness for the amended C4 at `exDB4`, user 1, limit 5. -/
theorem c4_similar_users_ranking_witness :
    buildUserProfile exDB4 1 = some c4prof ∧
    c4prof.favorite_categories ≠ [] ∧
    ((findSimilarUsers exDB4 1 5).Pairwise
       (fun a b => b.common_categories < a.common_categories ∨
         (a.common_categories = b.common_categories ∧
           b.total_orders ≤ a.total_orders)) ∧
     (∀ s ∈ findSimilarUsers exDB4 1 5,
         s.common_categories
           = (firstOccs (matchingCats exDB4 c4prof.favorite_categories s.user_id)).length ∧
         s.total_orders
           = (matchingCats exDB4 c4prof.favorite_categories s.user_id).length) ∧
     c4prof.favorite_categories.length ≤ 3 ∧
     (findSimilarUsers exDB4 1 5).length ≤ 5) :=
  ⟨by decide, by decide, c4_similar_users_ranking exDB4 1 5 c4prof (by decide) (by decide)⟩

/-- C7: smart search returns at most 10 results; on the personalized
path every result scores popularity times 1.5 when its category is a
favorite and plain popularity otherwise, the list is sorted by that
relevance descending, and the boost threshold is exact: with favorite
popularity 8 against non-favorite 12 the tie (12 = 12) leaves the
non-favorite first, with 9 (13.5 > 12) the favorite overtakes. -/
theorem c7_search_ranking (db : DB) (term : String) (uid : Nat) (profile : Profile)
    (h0 : uid ≠ 0)
    (hb : buildUserProfile db uid = some profile)
    (hf : profile.favorite_categories ≠ []) :
    (∀ uo : Option Nat, (getSmartSearchResults db term uo).length ≤ 10) ∧
    (∀ sr ∈ getSmartSearchResults db term (some uid),
        sr.relevance_score
          = some (if sr.product.category ∈ profile.favorite_categories
              then (sr.popularity : ℚ) * (3/2) else (sr.popularity : ℚ))) ∧
    (getSmartSearchResults db term (some uid)).Pairwise
      (fun a b => b.relevance_score.getD 0 ≤ a.relevance_score.getD 0) ∧
    (getSmartSearchResults exDB7a "prod" (some 1)).map
      (fun sr => sr.product.product_id) = [2, 1] ∧
    (getSmartSearchResults exDB7b "prod" (some 1)).map
      (fun sr => sr.product.product_id) = [1, 2] := by
  have hfe : profile.favorite_categories.isEmpty = false := by
    cases hcat : profile.favorite_categories
    · exact absurd hcat hf
    · rfl
  refine ⟨?_, ?_, ?_, by decide, by decide⟩
  · intro uo
    unfold getSmartSearchResults
    rcases uo with _ | u
    · exact List.length_take_le _ _
    · dsimp only
      by_cases hu0 : u = 0
      · rw [if_pos hu0]
        exact List.length_take_le _ _
      · rw [if_neg hu0]
        rcases hbu : buildUserProfile db u with _ | prof
        · exact List.length_take_le _ _
        · dsimp only
          by_cases hpf : prof.favorite_categories.isEmpty = true
          · rw [if_pos hpf]
            exact List.length_take_le _ _
          · rw [if_neg hpf]
            exact List.length_take_le _ _
  · intro sr hsr
    unfold getSmartSearchResults at hsr
    dsimp only at hsr
    rw [if_neg h0, hb] at hsr
    dsimp only at hsr
    rw [if_neg (by simp [hfe])] at hsr
    have h1 := (List.take_sublist _ _).subset hsr
    rcases List.mem_map.mp h1 with ⟨sp, _, rfl⟩
    rfl
  · unfold getSmartSearchResults
    dsimp only
    rw [if_neg h0, hb]
    dsimp only
    rw [if_neg (by simp [hfe])]
    apply List.Pairwise.sublist (List.take_sublist _ _)
    rw [List.pairwise_map]
    exact sortDescBy_sorted _ _

/-- The profile of user 1 in `exDB7a`, selected from the optional
result. -/
def c7prof : Profile := (buildUserProfile exDB7a 1).getD dummyProfile

/-- Witness for C7 at `exDB7a`, term matching both products, user 1. -/
theorem c7_search_ranking_witness :
    (1 : Nat) ≠ 0 ∧
    buildUserProfile exDB7a 1 = some c7prof ∧
    c7prof.favorite_categories ≠ [] ∧
    ((∀ uo : Option Nat, (getSmartSearchResults exDB7a "prod" uo).length ≤ 10) ∧
     (∀ sr ∈ getSmartSearchResults exDB7a "prod" (some 1),
         sr.relevance_score
           = some (if sr.product.category ∈ c7prof.favorite_categories
               then (sr.popularity : ℚ) * (3/2) else (sr.popularity : ℚ))) ∧
     (getSmartSearchResults exDB7a "prod" (some 1)).Pairwise
       (fun a b => b.relevance_score.getD 0 ≤ a.relevance_score.getD 0) ∧
     (getSmartSearchResults exDB7a "prod" (some 1)).map
       (fun sr => sr.product.product_id) = [2, 1] ∧
     (getSmartSearchResults exDB7b "prod" (some 1)).map
       (fun sr => sr.product.product_id) = [1, 2]) :=
  ⟨by decide, by decide, by decide,
    c7_search_ranking exDB7a "prod" 1 c7prof (by decide) (by decide) (by decide)⟩

/-- C9: the profile builder is a pure function of the three tables —
stores with identical `users`, `products` and `orders` rows yield
identical profiles, so rebuilding over an unchanged store is
deterministic and idempotent. -/
theorem c9_profile_deterministic (db1 db2 : DB) (uid : Nat)
    (hu : db1.users = db2.users) (hp : db1.products = db2.products)
    (ho : db1.orders = db2.orders) :
    buildUserProfile db1 uid = buildUserProfile db2 uid := by
  have hdb : db1 = db2 := by
    rw [show db1 = DB.mk db1.users db1.products db1.orders from rfl, hu, hp, ho]
  rw [hdb]

/-- Witness for C9: `exDB9` holds the same rows as `exDB2`. -/
theorem c9_profile_deterministic_witness :
    exDB2.users = exDB9.users ∧ exDB2.products = exDB9.products ∧
    exDB2.orders = exDB9.orders ∧
    buildUserProfile exDB2 1 = buildUserProfile exDB9 1 :=
  ⟨rfl, rfl, rfl, c9_profile_deterministic exDB2 exDB9 1 rfl rfl rfl⟩
